import Mathlib

/-!
Verification of the passage-embedding analysis core
(`src/passage_embed`): a shallow embedding in Lean 4 of the
embedding-generation, Matryoshka-truncation, dimensionality-reduction and
similarity-scoring logic, together with theorems settling the spec's claims.

Modelling conventions:
* numpy float arrays are idealized as `List ℝ` (exact real arithmetic);
* Python dicts (insertion-ordered) are association lists;
* functions that may raise return `Except`; the repo's exception classes
  (`core/exceptions.py`) become the payload-free inductive `PEError`
  (exception messages are elided — no claim depends on them);
* external numerical primitives (SentenceTransformer encoding, sklearn PCA,
  openTSNE) are parameters of the definitions that call them, so theorems
  quantify over every possible backend behaviour.
-/

namespace PassageEmbed

/-- The exception hierarchy of `core/exceptions.py`, message payloads elided.
Each constructor corresponds to one exception class. -/
inductive PEError where
  | validationError
  | scrapingError
  | embeddingError
  | visualizationError
  | configurationError
  | fileError
  | networkError
deriving DecidableEq, Repr

/-- `ALLOWED_MRL_DIMS = {128, 256, 512, 768}` from `analysis/embeddings.py`. -/
def ALLOWED_MRL_DIMS : List ℤ := [128, 256, 512, 768]

/-- `'embeddinggemma' in self.model_name.lower()`
(`EmbeddingGenerator.__init__`, embeddings.py line 34): lower-case the model
name (character-wise, which agrees with Python `str.lower` on ASCII model
names) and test substring containment. -/
def is_gemma_name (model_name : String) : Bool :=
  decide ("embeddinggemma".toList <:+: model_name.toList.map Char.toLower)

/-- `EmbeddingGenerator._validate_embedding_dim` (embeddings.py lines 61-72):
`None` passes; a non-positive dimension raises `EmbeddingError`; for the
EmbeddingGemma family a dimension outside `ALLOWED_MRL_DIMS` raises
`EmbeddingError`. -/
def validate_embedding_dim (is_gemma : Bool) (embedding_dim : Option ℤ) :
    Except PEError Unit :=
  match embedding_dim with
  | none => Except.ok ()
  | some d =>
    if d ≤ 0 then Except.error PEError.embeddingError
    else if is_gemma && !(ALLOWED_MRL_DIMS.contains d) then
      Except.error PEError.embeddingError
    else Except.ok ()

/-- The state an `EmbeddingGenerator` holds after `__init__` succeeds. -/
structure EmbeddingGeneratorState where
  model_name : String
  embedding_dim : Option ℤ
  is_gemma : Bool
deriving DecidableEq, Repr

/-- `EmbeddingGenerator.__init__` (embeddings.py lines 20-36): computes
`is_gemma`, runs `_validate_embedding_dim`, and only then runs `_load_model`.
The loader is a parameter (`load_model`) standing for the external
SentenceTransformer initialisation, so that theorems can show validation
failures are independent of it. -/
def embedding_generator_init (load_model : String → Except PEError Unit)
    (model_name : String) (embedding_dim : Option ℤ) :
    Except PEError EmbeddingGeneratorState :=
  match validate_embedding_dim (is_gemma_name model_name) embedding_dim with
  | Except.error e => Except.error e
  | Except.ok () =>
    match load_model model_name with
    | Except.error e => Except.error e
    | Except.ok () =>
      Except.ok ⟨model_name, embedding_dim, is_gemma_name model_name⟩

/-- A loader that always succeeds (used to instantiate theorems). -/
def load_model_ok : String → Except PEError Unit := fun _ => Except.ok ()

/-- Sum of squares of a vector's components; `np.linalg.norm(v)` is its
square root. -/
noncomputable def sum_sq (v : List ℝ) : ℝ := (v.map (fun x => x * x)).sum

/-- `np.linalg.norm(v)` for a 1-D float array: the L2 norm. -/
noncomputable def l2norm (v : List ℝ) : ℝ := Real.sqrt (sum_sq v)

/-- `EmbeddingGenerator._truncate_embedding` (embeddings.py lines 218-229):
return the vector unchanged when no target dimension is set or the vector is
already at most that long; otherwise take the first `embedding_dim`
components and divide by their L2 norm when that norm is positive. -/
noncomputable def truncate_embedding (embedding_dim : Option ℕ)
    (vector : List ℝ) : List ℝ :=
  match embedding_dim with
  | none => vector
  | some d =>
    if vector.length ≤ d then vector
    else
      let truncated := vector.take d
      let norm := l2norm truncated
      if 0 < norm then truncated.map (fun x => x / norm) else truncated

/-- `EmbeddingGenerator._apply_truncation` (embeddings.py lines 203-216) on a
2-D batch of embeddings: identity when `embedding_dim is None`, otherwise
truncate each row. -/
noncomputable def apply_truncation (embedding_dim : Option ℕ)
    (rows : List (List ℝ)) : List (List ℝ) :=
  match embedding_dim with
  | none => rows
  | some _ => rows.map (truncate_embedding embedding_dim)

/-- `EmbeddingGenerator.generate_embeddings` (embeddings.py lines 74-93) with
the model already loaded: pass `texts` to the backend's `encode` (a
parameter) and apply truncation. The backend is abstracted as a total
function, so the surrounding `except` clause never fires. -/
noncomputable def generate_embeddings (encode : List String → List (List ℝ))
    (embedding_dim : Option ℕ) (texts : List String) :
    Except PEError (List (List ℝ)) :=
  Except.ok (apply_truncation embedding_dim (encode texts))

/-- `np.mean(l, axis=0)` over a list of equal-length rows: `none` models the
NaN vector numpy produces (with only a RuntimeWarning, no exception) when the
list is empty; otherwise the elementwise arithmetic mean. -/
noncomputable def vec_sum : List (List ℝ) → List ℝ
  | [] => []
  | v :: vs => vs.foldl (fun a b => List.zipWith (· + ·) a b) v

/-- Elementwise unweighted arithmetic mean of a list of equal-length rows. -/
noncomputable def vec_mean (l : List (List ℝ)) : List ℝ :=
  (vec_sum l).map (fun x => x / (l.length : ℝ))

/-- `np.mean(l, axis=0)`: NaN (modelled `none`) on the empty list, the
elementwise mean otherwise. -/
noncomputable def np_mean_axis0 (l : List (List ℝ)) : Option (List ℝ) :=
  match l with
  | [] => none
  | _ :: _ => some (vec_mean l)

/-- One record of `embeddings_data` (embeddings.py lines 121-128 and
159-168). -/
structure EmbRecord where
  embedding : List ℝ
  label : String
  type : String
  value : String
  symbol : String
  size : ℤ

/-- One item of the extractor's JSON payload: `type`, `value`, `source`. -/
structure ContentElement where
  type : String
  value : String
  source : String

/-- The inner loop of `EmbeddingGenerator.process_json_data`
(embeddings.py lines 114-132) for one source: encode each element's value
(via the abstract, fallible `enc_doc` backend), truncate, and build records;
an element whose encoding fails is skipped (`except ... continue`) and the
rest of the group is still processed. Returns the records and the collected
truncated embeddings (`element_embeddings`). -/
noncomputable def process_group (enc_doc : String → Except Unit (List ℝ))
    (embedding_dim : Option ℕ) (symbol_mapping : List (String × String))
    (size_mapping : List (String × ℤ)) (label : String) :
    List ContentElement → List EmbRecord × List (List ℝ)
  | [] => ([], [])
  | el :: rest =>
    let tail := process_group enc_doc embedding_dim symbol_mapping
      size_mapping label rest
    match enc_doc el.value with
    | Except.error _ => tail
    | Except.ok emb =>
      let t := truncate_embedding embedding_dim emb
      (⟨t, label, el.type, el.value,
        (symbol_mapping.lookup el.source).getD "circle",
        (size_mapping.lookup el.source).getD 8⟩ :: tail.1,
       t :: tail.2)

/-- `EmbeddingGenerator.process_json_data` (embeddings.py lines 95-139):
iterate the sources in order, and record a source's mean embedding only when
`element_embeddings` is non-empty (`if element_embeddings:` line 135). -/
noncomputable def process_json_data (enc_doc : String → Except Unit (List ℝ))
    (embedding_dim : Option ℕ) (symbol_mapping : List (String × String))
    (size_mapping : List (String × ℤ)) :
    List (String × List ContentElement) →
    List EmbRecord × List (String × List ℝ)
  | [] => ([], [])
  | (url_key, elements) :: rest =>
    let g := process_group enc_doc embedding_dim symbol_mapping size_mapping
      url_key elements
    let r := process_json_data enc_doc embedding_dim symbol_mapping
      size_mapping rest
    (g.1 ++ r.1,
     match np_mean_axis0 g.2 with
     | none => r.2
     | some m => (url_key, m) :: r.2)

/-- `EmbeddingGenerator.generate_query_embeddings` (embeddings.py lines
141-176): encode the whole query list (abstract backend `encode_query`),
truncate, build one record per returned embedding reading `queries[i]`
(which raises IndexError — wrapped into `EmbeddingError` by the `except`
clause — exactly when the backend returns more embeddings than there are
queries), and take `np.mean` of the embeddings.  There is no emptiness
check. -/
noncomputable def generate_query_embeddings
    (encode_query : List String → List (List ℝ)) (embedding_dim : Option ℕ)
    (queries : List String) :
    Except PEError (List EmbRecord × Option (List ℝ)) :=
  let query_embeddings := apply_truncation embedding_dim (encode_query queries)
  if query_embeddings.length ≤ queries.length then
    Except.ok
      ((query_embeddings.zip queries).map
        (fun p => ⟨p.1, "Queries", "Query", p.2, "x", 6⟩),
       np_mean_axis0 query_embeddings)
  else Except.error PEError.embeddingError

/-- `MIN_SAMPLES_FOR_TSNE = 4` (visualization/plotly_3d.py line 21). -/
def MIN_SAMPLES_FOR_TSNE : ℕ := 4

/-- `DEFAULT_PERPLEXITY = 30` (visualization/plotly_3d.py line 22). -/
def DEFAULT_PERPLEXITY : ℕ := 30

/-- `perplexity = max(5, min(DEFAULT_PERPLEXITY, n_samples - 1))`
(visualization/plotly_3d.py line 73). -/
def perplexity (n_samples : ℕ) : ℕ :=
  max 5 (min DEFAULT_PERPLEXITY (n_samples - 1))

/-- Which reduction ran: `reduction_method` in `create_3d_visualization`
("PCA" is the LINEAR method, "t-SNE" the NONLINEAR one). -/
inductive ReductionMethod where
  | pca
  | tsne
deriving DecidableEq, Repr

/-- The zero-padding of `create_3d_visualization` (plotly_3d.py lines 66-68
and 90-92): when fewer than 3 components were produced, `np.hstack` each row
with `3 - k` zero columns. -/
noncomputable def pca_pad (rows : List (List ℝ)) (n_components : ℕ) :
    List (List ℝ) :=
  if n_components < 3 then
    rows.map (fun row => row ++ List.replicate (3 - n_components) (0 : ℝ))
  else rows

/-- Step 1 of `create_3d_visualization` (plotly_3d.py lines 50-95), together
with the blanket `except` at lines 399-400 that wraps any escaping exception
into `VisualizationError`.  `pca` and `tsne` are the external sklearn/openTSNE
primitives, abstracted as fallible functions taking (number of components /
perplexity, input rows): with `n` input rows, `n < 4` runs PCA with
`min(3, n)` components and zero-pads; otherwise t-SNE with the adaptive
perplexity is attempted and any failure falls back to the PCA procedure. -/
noncomputable def reduce_dimensions
    (pca : ℕ → List (List ℝ) → Except Unit (List (List ℝ)))
    (tsne : ℕ → List (List ℝ) → Except Unit (List (List ℝ)))
    (all_embeddings : List (List ℝ)) :
    Except PEError (List (List ℝ) × ReductionMethod) :=
  let n_samples := all_embeddings.length
  if n_samples < MIN_SAMPLES_FOR_TSNE then
    match pca (min 3 n_samples) all_embeddings with
    | Except.error _ => Except.error PEError.visualizationError
    | Except.ok reduced =>
      Except.ok (pca_pad reduced (min 3 n_samples), ReductionMethod.pca)
  else
    match tsne (perplexity n_samples) all_embeddings with
    | Except.ok reduced => Except.ok (reduced, ReductionMethod.tsne)
    | Except.error _ =>
      match pca (min 3 n_samples) all_embeddings with
      | Except.error _ => Except.error PEError.visualizationError
      | Except.ok reduced =>
        Except.ok (pca_pad reduced (min 3 n_samples), ReductionMethod.pca)

/-- Dot product of two equal-length float vectors. -/
noncomputable def dot (a b : List ℝ) : ℝ := (List.zipWith (· * ·) a b).sum

/-- `sklearn.metrics.pairwise.cosine_similarity([a], [b])[0][0]`, modelled
from sklearn's documented semantics: inputs of different dimension raise
(`error`); otherwise each vector is L2-normalised with a zero norm replaced
by 1 (sklearn `normalize`), so a zero vector yields similarity 0 rather than
an error. -/
noncomputable def sklearn_cosine (a b : List ℝ) : Except Unit ℝ :=
  if a.length = b.length then
    Except.ok (dot a b /
      ((if l2norm a = 0 then 1 else l2norm a) *
       (if l2norm b = 0 then 1 else l2norm b)))
  else Except.error ()

/-- The `cosine_similarities` dict comprehension of plotly_3d.py lines
114-118, entry by entry in insertion order: the first raising
`cosine_similarity` call aborts the comprehension. -/
noncomputable def cosine_list (queries_mean : List ℝ) :
    List (String × List ℝ) → Except Unit (List (String × ℝ))
  | [] => Except.ok []
  | (key, mean) :: rest =>
    match sklearn_cosine mean queries_mean with
    | Except.error e => Except.error e
    | Except.ok c =>
      match cosine_list queries_mean rest with
      | Except.error e => Except.error e
      | Except.ok l => Except.ok ((key, c) :: l)

/-- Step 3 of `create_3d_visualization` (plotly_3d.py lines 114-118), with
the blanket `except` at lines 399-400 wrapping a raising comprehension into
`VisualizationError`.  No validation of zero norms or dimensions happens
before calling sklearn. -/
noncomputable def cosine_similarities_step
    (mean_embeddings : List (String × List ℝ)) (queries_mean : List ℝ) :
    Except PEError (List (String × ℝ)) :=
  match cosine_list queries_mean mean_embeddings with
  | Except.error _ => Except.error PEError.visualizationError
  | Except.ok l => Except.ok l

/-- A PCA stub matching sklearn's observable contract on the inputs the
claims exercise: it fails on an empty batch (sklearn raises on zero-sample
arrays) and otherwise returns one `k`-component row per input row. -/
noncomputable def pca_stub : ℕ → List (List ℝ) → Except Unit (List (List ℝ)) :=
  fun k rows =>
    if rows.isEmpty then Except.error ()
    else Except.ok (rows.map (fun _ => List.replicate k (0 : ℝ)))

/-- A t-SNE stub that always fails (exercises the fallback path). -/
noncomputable def tsne_fail_stub :
    ℕ → List (List ℝ) → Except Unit (List (List ℝ)) :=
  fun _ _ => Except.error ()

/-- A t-SNE stub that succeeds, returning one 3-D point per input row. -/
noncomputable def tsne_ok_stub :
    ℕ → List (List ℝ) → Except Unit (List (List ℝ)) :=
  fun _ rows => Except.ok (rows.map (fun _ => [0, 0, 0]))

/-- An encode backend returning one fixed embedding per input text. -/
noncomputable def encode_const_stub : List String → List (List ℝ) :=
  fun texts => texts.map (fun _ => [1, 0])

/-- An encode backend that (wrongly, for a real sentence-transformer) returns
a non-empty batch on the empty input list; used to show the behaviour of the
code depends on the backend's output on `[]`. -/
noncomputable def encode_junk_stub : List String → List (List ℝ) :=
  fun _ => [[1, 0]]

/-- A per-document encode backend that fails on the text "bad" and returns
`[1, 0]` otherwise. -/
noncomputable def enc_doc_stub : String → Except Unit (List ℝ) :=
  fun s => if s = "bad" then Except.error () else Except.ok [1, 0]

/-- Content element used to instantiate theorems. -/
def el_a : ContentElement := ⟨"h1", "alpha", "client"⟩

/-- Content element whose value the stub backend fails to encode. -/
def el_bad : ContentElement := ⟨"p", "bad", "client"⟩

/-! ## Theorems -/

/-- Claim C8: the code computes the adaptive perplexity as
`max(5, min(30, n-1))`; the claim (and the code's own comment, line 71:
"must be less than n_samples-1") says the parameter is strictly less than
`n` for every `n ≥ 4`, but at `n = 4` the computed value is `5 ≥ 4`, and at
`n = 5` it is `5 ≥ 5`. -/
theorem perplexity_not_lt_n_at_4 :
    perplexity 4 = 5 ∧ ¬ perplexity 4 < 4 ∧
    perplexity 5 = 5 ∧ ¬ perplexity 5 < 5 ∧ 4 ≥ MIN_SAMPLES_FOR_TSNE := by
  decide

/-- Claim C1 (counterexample): constructing the engine for the EmbeddingGemma
model with `target_dim = 300` fails with `EmbeddingError`, not
`ConfigurationError` as the claim states. -/
theorem init_dim300_not_configuration_error :
    embedding_generator_init load_model_ok "google/embeddinggemma-300m"
      (some 300) = Except.error PEError.embeddingError ∧
    embedding_generator_init load_model_ok "google/embeddinggemma-300m"
      (some 300) ≠ Except.error PEError.configurationError := by
  have h1 : embedding_generator_init load_model_ok
      "google/embeddinggemma-300m" (some 300)
      = Except.error PEError.embeddingError := by
    have hg : is_gemma_name "google/embeddinggemma-300m" = true := by decide
    simp only [embedding_generator_init, validate_embedding_dim, hg]
    norm_num [ALLOWED_MRL_DIMS]
  refine ⟨h1, ?_⟩
  rw [h1]
  simp

/-- Claim C1 (amended): if the model family is EmbeddingGemma and a non-None
target dimension outside `{128, 256, 512, 768}` is requested, engine
construction fails with `EmbeddingError` (not `ConfigurationError`), and the
failure is independent of the model loader — validation runs before any
model-loading work. -/
theorem init_invalid_gemma_dim_fails_before_load
    (load_model : String → Except PEError Unit) (model_name : String) (d : ℤ)
    (hg : is_gemma_name model_name = true)
    (hd : ALLOWED_MRL_DIMS.contains d = false) :
    embedding_generator_init load_model model_name (some d)
      = Except.error PEError.embeddingError := by
  have hv : validate_embedding_dim (is_gemma_name model_name) (some d)
      = Except.error PEError.embeddingError := by
    simp only [validate_embedding_dim, hg, hd]
    by_cases hle : d ≤ 0
    · rw [if_pos hle]
    · rw [if_neg hle]
      simp
  unfold embedding_generator_init
  rw [hv]

/-- Claim C1 witness: the amended theorem at the spec's concrete scenario
(`target_dim = 300`, EmbeddingGemma model, a loader that would succeed). -/
theorem init_invalid_gemma_dim_fails_before_load_witness :
    embedding_generator_init load_model_ok "google/embeddinggemma-300m"
      (some 300) = Except.error PEError.embeddingError :=
  init_invalid_gemma_dim_fails_before_load load_model_ok
    "google/embeddinggemma-300m" 300 (by decide) (by decide)

/-- Claim C7 (counterexample): `generate_embeddings` passes the empty text
list to the backend's `encode`; with a backend whose `encode` returns a
non-empty batch on `[]`, the result is that batch, not the empty sequence —
so the result is not empty "for every possible model backend" and the
model's encode function is consulted. -/
theorem generate_embeddings_empty_consults_backend :
    generate_embeddings encode_junk_stub none [] = Except.ok [[1, 0]] ∧
    generate_embeddings encode_junk_stub none [] ≠ Except.ok [] := by
  constructor
  · rfl
  · simp [generate_embeddings, apply_truncation, encode_junk_stub]

/-- Claim C7 (amended): for the empty list of texts, the empty list is passed
to the backend's `encode`; whenever the backend returns one embedding per
input (so `encode [] = []`, as a real sentence-transformer does), the result
is the empty sequence. -/
theorem generate_embeddings_empty (encode : List String → List (List ℝ))
    (embedding_dim : Option ℕ) (h : encode [] = []) :
    generate_embeddings encode embedding_dim [] = Except.ok [] := by
  cases embedding_dim <;> simp [generate_embeddings, apply_truncation, h]

/-- Claim C7 witness: the amended theorem at a concrete backend. -/
theorem generate_embeddings_empty_witness :
    generate_embeddings encode_const_stub (some 128) [] = Except.ok [] :=
  generate_embeddings_empty encode_const_stub (some 128) rfl

/-- Claim C2: for the empty query list, `generate_query_embeddings` raises
nothing at all: it returns successfully with an empty record list and the
undefined `np.mean` of an empty batch (a NaN vector, modelled `none`) —
numpy only emits a RuntimeWarning for the empty mean.  The claim says a
`ValidationError` is raised and no NaN mean is produced; the code has no
emptiness check. -/
theorem generate_query_embeddings_empty_returns_nan_mean
    (encode_query : List String → List (List ℝ)) (embedding_dim : Option ℕ)
    (h : encode_query [] = []) :
    generate_query_embeddings encode_query embedding_dim []
      = Except.ok ([], none) := by
  cases embedding_dim <;>
    simp [generate_query_embeddings, apply_truncation, np_mean_axis0, h]

/-- Claim C2 witness: the empty-query behaviour at a concrete backend. -/
theorem generate_query_embeddings_empty_witness :
    generate_query_embeddings encode_const_stub (some 128) []
      = Except.ok ([], none) :=
  generate_query_embeddings_empty_returns_nan_mean encode_const_stub
    (some 128) rfl

theorem sum_sq_cons (a : ℝ) (v : List ℝ) :
    sum_sq (a :: v) = a * a + sum_sq v := by
  simp [sum_sq]

theorem sum_sq_nonneg (v : List ℝ) : 0 ≤ sum_sq v := by
  induction v with
  | nil => simp [sum_sq]
  | cons a v ih => simpa [sum_sq_cons] using add_nonneg (mul_self_nonneg a) ih

theorem sum_sq_map_div (v : List ℝ) (c : ℝ) :
    sum_sq (v.map fun x => x / c) = sum_sq v / (c * c) := by
  induction v with
  | nil => simp [sum_sq]
  | cons a v ih =>
    simp only [List.map_cons, sum_sq_cons, ih]
    rw [div_mul_div_comm, div_add_div_same]

theorem l2norm_eq_zero_iff (v : List ℝ) : l2norm v = 0 ↔ sum_sq v = 0 := by
  unfold l2norm
  exact Real.sqrt_eq_zero (sum_sq_nonneg v)

/-- Dividing every component by a non-zero L2 norm produces a unit vector. -/
theorem l2norm_map_div_self (v : List ℝ) (h : l2norm v ≠ 0) :
    l2norm (v.map fun x => x / l2norm v) = 1 := by
  have hS : sum_sq v ≠ 0 := fun h0 => h ((l2norm_eq_zero_iff v).mpr h0)
  unfold l2norm
  rw [sum_sq_map_div]
  rw [Real.mul_self_sqrt (sum_sq_nonneg v), div_self hS, Real.sqrt_one]

/-- A vector no longer than the target dimension is returned unchanged. -/
theorem truncate_embedding_of_le (d : ℕ) (w : List ℝ) (h : w.length ≤ d) :
    truncate_embedding (some d) w = w := by
  simp [truncate_embedding, h]

/-- Claim C4: `_truncate_embedding` returns the vector unchanged when
`embedding_dim` is `None` or at least the vector's length; otherwise it
returns the first `d` components L2-renormalised to unit norm, except that a
zero-norm truncated prefix is returned unnormalised — the division by the
norm only happens when the norm is positive. -/
theorem truncate_embedding_spec (v : List ℝ) (d : ℕ) :
    truncate_embedding none v = v ∧
    (v.length ≤ d → truncate_embedding (some d) v = v) ∧
    (d < v.length → l2norm (v.take d) = 0 →
      truncate_embedding (some d) v = v.take d) ∧
    (d < v.length → l2norm (v.take d) ≠ 0 →
      truncate_embedding (some d) v
          = (v.take d).map (fun x => x / l2norm (v.take d)) ∧
        (truncate_embedding (some d) v).length = d ∧
        l2norm (truncate_embedding (some d) v) = 1) := by
  refine ⟨rfl, truncate_embedding_of_le d v, ?_, ?_⟩
  · intro hlt h0
    simp only [truncate_embedding]
    rw [if_neg (not_le.mpr hlt), h0]
    simp
  · intro hlt hne
    have hpos : 0 < l2norm (v.take d) :=
      lt_of_le_of_ne (Real.sqrt_nonneg _) (Ne.symm hne)
    have heq : truncate_embedding (some d) v
        = (v.take d).map (fun x => x / l2norm (v.take d)) := by
      simp only [truncate_embedding]
      rw [if_neg (not_le.mpr hlt), if_pos hpos]
    refine ⟨heq, ?_, ?_⟩
    · rw [heq]
      simp [Nat.min_eq_left hlt.le]
    · rw [heq]
      exact l2norm_map_div_self (v.take d) hne

/-- Claim C4 witness: the three branches at concrete vectors —
`[3, 4]` with `d = 2` is already short enough; `[0, 0, 0]` truncates to the
zero prefix and is returned unnormalised; `[3, 4, 12]` truncates to `[3, 4]`
(norm 5) and is renormalised to unit norm. -/
theorem truncate_embedding_spec_witness :
    truncate_embedding (some 2) [(3 : ℝ), 4] = [(3 : ℝ), 4] ∧
    truncate_embedding (some 2) [(0 : ℝ), 0, 0]
      = ([(0 : ℝ), 0, 0].take 2) ∧
    l2norm (truncate_embedding (some 2) [(3 : ℝ), 4, 12]) = 1 :=
  ⟨(truncate_embedding_spec [3, 4] 2).2.1 (by simp),
   (truncate_embedding_spec [0, 0, 0] 2).2.2.1 (by simp)
     (by norm_num [l2norm, sum_sq]),
   ((truncate_embedding_spec [3, 4, 12] 2).2.2.2 (by simp)
     (by norm_num [l2norm, sum_sq, Real.sqrt_ne_zero'])).2.2⟩

/-- Claim C10: truncation is idempotent — one application yields a vector of
length at most the target dimension, and such vectors are returned
unchanged, so a second application is the identity. -/
theorem truncate_embedding_idempotent (embedding_dim : Option ℕ)
    (v : List ℝ) :
    truncate_embedding embedding_dim (truncate_embedding embedding_dim v)
      = truncate_embedding embedding_dim v := by
  cases embedding_dim with
  | none => rfl
  | some d =>
    by_cases hle : v.length ≤ d
    · rw [truncate_embedding_of_le d v hle, truncate_embedding_of_le d v hle]
    · have hlen : (truncate_embedding (some d) v).length ≤ d := by
        simp only [truncate_embedding]
        rw [if_neg hle]
        by_cases hpos : 0 < l2norm (v.take d)
        · rw [if_pos hpos]
          simp
        · rw [if_neg hpos]
          simp
      exact truncate_embedding_of_le d _ hlen

/-- Claim C3: with `n` input vectors, `n < 4` runs the LINEAR method (PCA)
with `min(3, n)` components and zero-pads each produced row to 3
coordinates; `n ≥ 4` attempts the NONLINEAR method (t-SNE) and any failure
falls back to the LINEAR procedure instead of propagating, so — given at
least one input vector and a linear primitive that succeeds, as sklearn's
PCA does on non-empty batches — reduction always succeeds, and the method
actually used is part of the result. -/
theorem reduce_dimensions_spec
    (pca tsne : ℕ → List (List ℝ) → Except Unit (List (List ℝ)))
    (vecs : List (List ℝ)) (hne : vecs ≠ [])
    (hpca : ∀ k, ∃ r, pca k vecs = Except.ok r) :
    (∃ out, reduce_dimensions pca tsne vecs = Except.ok out) ∧
    (vecs.length < 4 → ∀ r, pca (min 3 vecs.length) vecs = Except.ok r →
      reduce_dimensions pca tsne vecs
        = Except.ok (pca_pad r (min 3 vecs.length), ReductionMethod.pca)) ∧
    (4 ≤ vecs.length → ∀ r,
      tsne (perplexity vecs.length) vecs = Except.ok r →
      reduce_dimensions pca tsne vecs
        = Except.ok (r, ReductionMethod.tsne)) ∧
    (4 ≤ vecs.length → ∀ r,
      tsne (perplexity vecs.length) vecs = Except.error () →
      pca (min 3 vecs.length) vecs = Except.ok r →
      reduce_dimensions pca tsne vecs
        = Except.ok (pca_pad r (min 3 vecs.length), ReductionMethod.pca)) ∧
    (∀ rows k, k ≤ 3 → (∀ row ∈ rows, row.length = k) →
      ∀ row ∈ pca_pad rows k, row.length = 3) := by
  refine ⟨?_, ?_, ?_, ?_, ?_⟩
  · by_cases hn : vecs.length < MIN_SAMPLES_FOR_TSNE
    · obtain ⟨r, hr⟩ := hpca (min 3 vecs.length)
      exact ⟨(pca_pad r (min 3 vecs.length), ReductionMethod.pca),
        by simp [reduce_dimensions, hn, hr]⟩
    · cases ht : tsne (perplexity vecs.length) vecs with
      | ok r =>
        exact ⟨(r, ReductionMethod.tsne), by simp [reduce_dimensions, hn, ht]⟩
      | error e =>
        obtain ⟨r, hr⟩ := hpca (min 3 vecs.length)
        exact ⟨(pca_pad r (min 3 vecs.length), ReductionMethod.pca),
          by simp [reduce_dimensions, hn, ht, hr]⟩
  · intro hn r hr
    have hn' : vecs.length < MIN_SAMPLES_FOR_TSNE := hn
    simp [reduce_dimensions, hn', hr]
  · intro hn r ht
    have hn' : ¬ vecs.length < MIN_SAMPLES_FOR_TSNE := not_lt.mpr hn
    simp [reduce_dimensions, hn', ht]
  · intro hn r ht hr
    have hn' : ¬ vecs.length < MIN_SAMPLES_FOR_TSNE := not_lt.mpr hn
    simp [reduce_dimensions, hn', ht, hr]
  · intro rows k hk3 hrows row hrow
    unfold pca_pad at hrow
    by_cases hklt : k < 3
    · rw [if_pos hklt] at hrow
      obtain ⟨r0, hr0, rfl⟩ := List.mem_map.mp hrow
      have := hrows r0 hr0
      simp [this]
      omega
    · rw [if_neg hklt] at hrow
      have := hrows row hrow
      omega

/-- Claim C3 witness: the three control paths at concrete inputs — one
vector (PCA with one component, padded), four vectors with a succeeding
t-SNE, and four vectors with a failing t-SNE (PCA fallback). -/
theorem reduce_dimensions_spec_witness :
    reduce_dimensions pca_stub tsne_fail_stub [[(1 : ℝ), 0]]
      = Except.ok (pca_pad [[(0 : ℝ)]] 1, ReductionMethod.pca) ∧
    reduce_dimensions pca_stub tsne_ok_stub [[(1 : ℝ)], [2], [3], [4]]
      = Except.ok ([[(0 : ℝ), 0, 0], [0, 0, 0], [0, 0, 0], [0, 0, 0]],
          ReductionMethod.tsne) ∧
    reduce_dimensions pca_stub tsne_fail_stub [[(1 : ℝ)], [2], [3], [4]]
      = Except.ok
          (pca_pad [[(0 : ℝ), 0, 0], [0, 0, 0], [0, 0, 0], [0, 0, 0]] 3,
           ReductionMethod.pca) :=
  ⟨(reduce_dimensions_spec pca_stub tsne_fail_stub [[(1 : ℝ), 0]]
      (by simp) (fun k => ⟨_, rfl⟩)).2.1 (by simp) [[(0 : ℝ)]] rfl,
   (reduce_dimensions_spec pca_stub tsne_ok_stub [[(1 : ℝ)], [2], [3], [4]]
      (by simp) (fun k => ⟨_, rfl⟩)).2.2.1 (by simp)
      [[(0 : ℝ), 0, 0], [0, 0, 0], [0, 0, 0], [0, 0, 0]] rfl,
   (reduce_dimensions_spec pca_stub tsne_fail_stub [[(1 : ℝ)], [2], [3], [4]]
      (by simp) (fun k => ⟨_, rfl⟩)).2.2.2.1 (by simp)
      [[(0 : ℝ), 0, 0], [0, 0, 0], [0, 0, 0], [0, 0, 0]] rfl rfl⟩

/-- Claim C6 (counterexample): on the empty input the reducer fails with
`VisualizationError` (the blanket handler of `create_3d_visualization` wraps
the PCA failure), not `ValidationError` as the claim states. -/
theorem reduce_dimensions_empty_not_validation_error :
    reduce_dimensions pca_stub tsne_fail_stub []
      = Except.error PEError.visualizationError ∧
    reduce_dimensions pca_stub tsne_fail_stub []
      ≠ Except.error PEError.validationError := by
  have h1 : reduce_dimensions pca_stub tsne_fail_stub []
      = Except.error PEError.visualizationError := rfl
  exact ⟨h1, by rw [h1]; simp⟩

/-- Claim C6 (amended): for the empty input the reducer fails — via the
sklearn PCA primitive raising on a zero-sample array and the blanket
handler — with `VisualizationError`, not `ValidationError`. -/
theorem reduce_dimensions_empty_fails_visualization
    (pca tsne : ℕ → List (List ℝ) → Except Unit (List (List ℝ)))
    (hpca : pca 0 [] = Except.error ()) :
    reduce_dimensions pca tsne []
      = Except.error PEError.visualizationError := by
  simp [reduce_dimensions, MIN_SAMPLES_FOR_TSNE, hpca]

/-- Claim C6 witness: the amended theorem at the stub primitives. -/
theorem reduce_dimensions_empty_fails_visualization_witness :
    reduce_dimensions pca_stub tsne_ok_stub []
      = Except.error PEError.visualizationError :=
  reduce_dimensions_empty_fails_visualization pca_stub tsne_ok_stub rfl

theorem sum_sq_eq_zero_iff (v : List ℝ) :
    sum_sq v = 0 ↔ ∀ x ∈ v, x = 0 := by
  induction v with
  | nil => simp [sum_sq]
  | cons a v ih =>
    rw [sum_sq_cons]
    constructor
    · intro h
      have h2 := (add_eq_zero_iff_of_nonneg (mul_self_nonneg a)
        (sum_sq_nonneg v)).mp h
      intro x hx
      rcases List.mem_cons.mp hx with hx | hx
      · rw [hx]
        exact mul_self_eq_zero.mp h2.1
      · exact (ih.mp h2.2) x hx
    · intro h
      have ha : a = 0 := h a (by simp)
      have hv : sum_sq v = 0 := ih.mpr (fun x hx => h x (by simp [hx]))
      rw [ha, hv]
      ring

theorem dot_cons (a b : ℝ) (v w : List ℝ) :
    dot (a :: v) (b :: w) = a * b + dot v w := by
  simp [dot]

/-- A zero vector has dot product 0 with anything. -/
theorem dot_eq_zero_of_left_zero (v : List ℝ) (h : ∀ x ∈ v, x = 0) :
    ∀ w : List ℝ, dot v w = 0 := by
  induction v with
  | nil => intro w; simp [dot]
  | cons a v ih =>
    intro w
    cases w with
    | nil => simp [dot]
    | cons b w =>
      have ha : a = 0 := h a (by simp)
      have hv := ih (fun x hx => h x (by simp [hx])) w
      rw [dot_cons, ha, hv]
      ring

/-- The comprehension aborts at the first dimension mismatch. -/
theorem cosine_list_error_of_mismatch (ref : List ℝ)
    (means : List (String × List ℝ))
    (h : ∃ km ∈ means, km.2.length ≠ ref.length) :
    cosine_list ref means = Except.error () := by
  induction means with
  | nil => simp at h
  | cons km rest ih =>
    obtain ⟨km0, hmem, hlen⟩ := h
    rcases List.mem_cons.mp hmem with heq | hmem'
    · rw [heq] at hlen
      obtain ⟨key, mean⟩ := km
      simp only [cosine_list, sklearn_cosine]
      rw [if_neg hlen]
    · obtain ⟨key, mean⟩ := km
      by_cases hk : mean.length = ref.length
      · simp only [cosine_list, sklearn_cosine]
        rw [if_pos hk, ih ⟨km0, hmem', hlen⟩]
      · simp only [cosine_list, sklearn_cosine]
        rw [if_neg hk]

/-- When all dimensions agree the comprehension succeeds, entry by entry. -/
theorem cosine_list_ok_of_match (ref : List ℝ)
    (means : List (String × List ℝ))
    (h : ∀ km ∈ means, km.2.length = ref.length) :
    cosine_list ref means
      = Except.ok (means.map (fun km => (km.1,
          dot km.2 ref /
            ((if l2norm km.2 = 0 then 1 else l2norm km.2) *
             (if l2norm ref = 0 then 1 else l2norm ref))))) := by
  induction means with
  | nil => rfl
  | cons km rest ih =>
    obtain ⟨key, mean⟩ := km
    have hk : mean.length = ref.length := h (key, mean) (by simp)
    have hrest := ih (fun km2 hm => h km2 (by simp [hm]))
    simp only [cosine_list, sklearn_cosine]
    rw [if_pos hk, hrest]
    rfl

/-- Claim C5 (counterexample): scoring a zero group-mean vector does not
raise — sklearn's `cosine_similarity` treats a zero norm as 1 and the step
returns the number 0 for that group. -/
theorem cosine_step_zero_vector_returns_value :
    cosine_similarities_step [("client", [(0 : ℝ), 0])] [(1 : ℝ), 0]
      = Except.ok [("client", (0 : ℝ))] := by
  have hd : dot [(0 : ℝ), 0] [(1 : ℝ), 0] = 0 := by norm_num [dot]
  simp [cosine_similarities_step, cosine_list, sklearn_cosine, hd]

/-- Claim C5 (amended): the similarity step raises `VisualizationError`
(sklearn's dimension-mismatch error wrapped by the blanket handler) when any
group mean's dimension differs from the reference's; it does NOT validate
zero norms — with matching dimensions it always returns a number for every
group, and a zero-norm group mean is scored 0. -/
theorem cosine_similarities_step_spec (means : List (String × List ℝ))
    (queries_mean : List ℝ) :
    ((∃ km ∈ means, km.2.length ≠ queries_mean.length) →
      cosine_similarities_step means queries_mean
        = Except.error PEError.visualizationError) ∧
    ((∀ km ∈ means, km.2.length = queries_mean.length) →
      cosine_similarities_step means queries_mean
        = Except.ok (means.map (fun km => (km.1,
            dot km.2 queries_mean /
              ((if l2norm km.2 = 0 then 1 else l2norm km.2) *
               (if l2norm queries_mean = 0 then 1
                else l2norm queries_mean)))))) ∧
    (∀ v : List ℝ, l2norm v = 0 → v.length = queries_mean.length →
      sklearn_cosine v queries_mean = Except.ok 0) := by
  refine ⟨?_, ?_, ?_⟩
  · intro h
    simp only [cosine_similarities_step]
    rw [cosine_list_error_of_mismatch queries_mean means h]
  · intro h
    simp only [cosine_similarities_step]
    rw [cosine_list_ok_of_match queries_mean means h]
  · intro v hnorm hlen
    have hz : ∀ x ∈ v, x = 0 :=
      (sum_sq_eq_zero_iff v).mp ((l2norm_eq_zero_iff v).mp hnorm)
    have hd : dot v queries_mean = 0 :=
      dot_eq_zero_of_left_zero v hz queries_mean
    simp only [sklearn_cosine]
    rw [if_pos hlen, hd, zero_div]

/-- Claim C5 witness: a mismatched dimension raises `VisualizationError`; a
zero group mean with matching dimension yields a value (similarity 0). -/
theorem cosine_similarities_step_spec_witness :
    cosine_similarities_step [("g", [(1 : ℝ)])] [(1 : ℝ), 0]
      = Except.error PEError.visualizationError ∧
    cosine_similarities_step [("g", [(0 : ℝ), 0])] [(1 : ℝ), 0]
      = Except.ok [("g",
          dot [(0 : ℝ), 0] [(1 : ℝ), 0] /
            ((if l2norm [(0 : ℝ), 0] = 0 then 1 else l2norm [(0 : ℝ), 0]) *
             (if l2norm [(1 : ℝ), 0] = 0 then 1
              else l2norm [(1 : ℝ), 0])))] ∧
    sklearn_cosine [(0 : ℝ), 0] [(1 : ℝ), 0] = Except.ok 0 :=
  ⟨(cosine_similarities_step_spec [("g", [(1 : ℝ)])] [(1 : ℝ), 0]).1
      ⟨("g", [(1 : ℝ)]), by simp, by simp⟩,
   (cosine_similarities_step_spec [("g", [(0 : ℝ), 0])] [(1 : ℝ), 0]).2.1
      (by simp),
   (cosine_similarities_step_spec [("g", [(0 : ℝ), 0])] [(1 : ℝ), 0]).2.2
      [(0 : ℝ), 0] (by norm_num [l2norm, sum_sq, Real.sqrt_zero]) (by simp)⟩

/-- The embeddings collected by `process_group` are exactly the truncated
encodings of the elements whose encoding succeeded, in order. -/
theorem process_group_embs (enc_doc : String → Except Unit (List ℝ))
    (embedding_dim : Option ℕ) (sm : List (String × String))
    (zm : List (String × ℤ)) (label : String) (elems : List ContentElement) :
    (process_group enc_doc embedding_dim sm zm label elems).2
      = elems.filterMap (fun el => (enc_doc el.value).toOption.map
          (truncate_embedding embedding_dim)) := by
  induction elems with
  | nil => rfl
  | cons el rest ih =>
    cases h : enc_doc el.value <;>
      simp [process_group, h, ih, Except.toOption]

/-- `np.mean` over a non-empty batch is the elementwise mean. -/
theorem np_mean_axis0_ne_nil (l : List (List ℝ)) (h : l ≠ []) :
    np_mean_axis0 l = some (vec_mean l) := by
  cases l with
  | nil => exact absurd rfl h
  | cons a t => rfl

/-- A group none of whose elements encodes successfully produces no records
and no embeddings. -/
theorem process_group_all_fail (enc_doc : String → Except Unit (List ℝ))
    (embedding_dim : Option ℕ) (sm : List (String × String))
    (zm : List (String × ℤ)) (label : String)
    (elems : List ContentElement)
    (h : ∀ el ∈ elems, enc_doc el.value = Except.error ()) :
    process_group enc_doc embedding_dim sm zm label elems = ([], []) := by
  induction elems with
  | nil => rfl
  | cons el rest ih =>
    have hel : enc_doc el.value = Except.error () := h el (by simp)
    simp [process_group, hel,
      ih (fun x hx => h x (List.mem_cons_of_mem el hx))]

/-- Claim C9: `process_json_data` (1) skips an element whose encoding fails
and continues with the rest of the group; (2) omits from the means a source
all of whose items failed (and contributes none of its records); (3) gives
an element whose source is absent from the symbol/size maps the defaults
"circle" and 8, without failing; (4) maps each source with at least one
success to the elementwise arithmetic mean of its successfully-embedded
truncated vectors. -/
theorem process_json_data_spec (enc_doc : String → Except Unit (List ℝ))
    (embedding_dim : Option ℕ) (sm : List (String × String))
    (zm : List (String × ℤ)) :
    (∀ (label : String) (pre post : List ContentElement)
      (bad : ContentElement), enc_doc bad.value = Except.error () →
      process_group enc_doc embedding_dim sm zm label (pre ++ bad :: post)
        = process_group enc_doc embedding_dim sm zm label (pre ++ post)) ∧
    (∀ (k : String) (elems : List ContentElement)
      (rest : List (String × List ContentElement)),
      (∀ el ∈ elems, enc_doc el.value = Except.error ()) →
      process_json_data enc_doc embedding_dim sm zm ((k, elems) :: rest)
        = process_json_data enc_doc embedding_dim sm zm rest) ∧
    (∀ (label : String) (el : ContentElement) (e : List ℝ),
      enc_doc el.value = Except.ok e →
      sm.lookup el.source = none → zm.lookup el.source = none →
      process_group enc_doc embedding_dim sm zm label [el]
        = ([{ embedding := truncate_embedding embedding_dim e,
              label := label, type := el.type, value := el.value,
              symbol := "circle", size := 8 }],
           [truncate_embedding embedding_dim e])) ∧
    (∀ (k : String) (elems : List ContentElement)
      (rest : List (String × List ContentElement)),
      elems.filterMap (fun el => (enc_doc el.value).toOption.map
          (truncate_embedding embedding_dim)) ≠ [] →
      (process_json_data enc_doc embedding_dim sm zm ((k, elems) :: rest)).2
        = (k, vec_mean (elems.filterMap (fun el =>
              (enc_doc el.value).toOption.map
                (truncate_embedding embedding_dim))))
          :: (process_json_data enc_doc embedding_dim sm zm rest).2) := by
  refine ⟨?_, ?_, ?_, ?_⟩
  · intro label pre post bad hbad
    induction pre with
    | nil => simp [process_group, hbad]
    | cons p pre ih =>
      cases hp : enc_doc p.value <;>
        simp [process_group, hp, ih]
  · intro k elems rest hall
    have hg := process_group_all_fail enc_doc embedding_dim sm zm k elems hall
    simp [process_json_data, hg, np_mean_axis0]
  · intro label el e he hsm hzm
    simp [process_group, he, hsm, hzm]
  · intro k elems rest hne2
    have h2 := process_group_embs enc_doc embedding_dim sm zm k elems
    simp only [process_json_data]
    rw [h2, np_mean_axis0_ne_nil _ hne2]

/-- Claim C9 witness: the four properties at a concrete backend that fails
on the text "bad" and succeeds elsewhere, with empty symbol/size maps. -/
theorem process_json_data_spec_witness :
    process_group enc_doc_stub none [] [] "client" [el_a, el_bad]
      = process_group enc_doc_stub none [] [] "client" [el_a] ∧
    process_json_data enc_doc_stub none [] [] [("client", [el_bad])]
      = process_json_data enc_doc_stub none [] [] [] ∧
    process_group enc_doc_stub none [] [] "client" [el_a]
      = ([{ embedding := [(1 : ℝ), 0], label := "client", type := "h1",
            value := "alpha", symbol := "circle", size := 8 }],
         [[(1 : ℝ), 0]]) ∧
    (process_json_data enc_doc_stub none [] [] [("client", [el_a])]).2
      = [("client", vec_mean [[(1 : ℝ), 0]])] :=
  ⟨(process_json_data_spec enc_doc_stub none [] []).1 "client" [el_a] []
      el_bad rfl,
   (process_json_data_spec enc_doc_stub none [] []).2.1 "client" [el_bad] []
      (by intro el hel; rw [List.mem_singleton] at hel; subst hel; rfl),
   (process_json_data_spec enc_doc_stub none [] []).2.2.1 "client" el_a
      [(1 : ℝ), 0] rfl rfl rfl,
   (process_json_data_spec enc_doc_stub none [] []).2.2.2 "client" [el_a] []
      (by simp [el_a, enc_doc_stub, Except.toOption])⟩

end PassageEmbed
